import Mathlib

/-!
Shallow embedding of the search-orchestration core of mcp-omnisearch.

Each definition mirrors one function of the TypeScript source; the source
file and function are named in the doc comment.  JavaScript strings are
modelled as Lean strings (the queries involved are ASCII), millisecond
timestamps (JS Date values) as Nat, and JS regular-expression tests as
executable character-list scanners with the same match semantics on the
patterns the source uses.
-/

namespace Omni

/-- Character class of the JS regex class backslash-s (whitespace),
restricted to the code points JS treats as whitespace. -/
def isJsWs (c : Char) : Bool :=
  c = ' ' || c = '\t' || c = '\n' || (c.toNat = 11) || (c.toNat = 12) ||
  c = '\r' || c.toNat = 0xa0 || c.toNat = 0x1680 ||
  (0x2000 ≤ c.toNat && c.toNat ≤ 0x200a) ||
  c.toNat = 0x2028 || c.toNat = 0x2029 || c.toNat = 0x202f ||
  c.toNat = 0x205f || c.toNat = 0x3000 || c.toNat = 0xfeff

/-- JS line terminators (not matched by the regex dot). -/
def isLineTerm (c : Char) : Bool :=
  c = '\n' || c = '\r' || c.toNat = 0x2028 || c.toNat = 0x2029

/-- Whether the first list is an initial segment of the second. -/
def charsStartWith : List Char → List Char → Bool
  | [], _ => true
  | _ :: _, [] => false
  | p :: ps, c :: cs => p = c && charsStartWith ps cs

/-- Whether pat occurs as a contiguous substring of text
(JS String.prototype.includes). -/
def charsContain (pat : List Char) : List Char → Bool
  | [] => pat.isEmpty
  | c :: cs => charsStartWith pat (c :: cs) || charsContain pat cs

/-- JS s.includes(pat). -/
def str_includes (s pat : String) : Bool :=
  charsContain pat.toList s.toList

/-- Longest run of characters satisfying p at the front, and the rest. -/
def takeRun (p : Char → Bool) : List Char → List Char × List Char
  | [] => ([], [])
  | c :: cs =>
    if p c then
      let r := takeRun p cs
      (c :: r.1, r.2)
    else ([], c :: cs)

/-- Maximal non-whitespace runs of the character list, in order. -/
def wsTokensGo : Nat → List Char → List (List Char)
  | 0, _ => []
  | _, [] => []
  | fuel + 1, c :: cs =>
    if isJsWs c then wsTokensGo fuel cs
    else
      let r := takeRun (fun x => !isJsWs x) (c :: cs)
      r.1 :: wsTokensGo fuel r.2

/-- JS s.split on a whitespace-run regex: maximal non-whitespace runs,
with an empty leading (trailing) element when the string starts (ends)
with whitespace, and a single empty element for the empty string. -/
def js_split_ws (s : String) : List String :=
  match s.toList with
  | [] => [""]
  | c :: rest =>
    let cs := c :: rest
    let toks := (wsTokensGo cs.length cs).map (fun t => String.mk t)
    let lead : List String := if isJsWs c then [""] else []
    let trail : List String := if isJsWs ((c :: rest).getLast (by simp)) then [""] else []
    lead ++ toks ++ trail

/-- Whether some word of the list occurs in s delimited by whitespace on
both sides; this is exactly when a JS regex of the shape
whitespace-run, alternation of the words, whitespace-run matches s. -/
def hasDelimWord (words : List String) (s : String) : Bool :=
  delimScan (words.map String.toList) s.toList
where
  /-- Word match at the head followed by a whitespace character. -/
  wordThenWs (w : List Char) (cs : List Char) : Bool :=
    charsStartWith w cs &&
      (match cs.drop w.length with
       | c :: _ => isJsWs c
       | [] => false)
  delimScan (ws : List (List Char)) : List Char → Bool
    | [] => false
    | c :: cs => (isJsWs c && ws.any (fun w => wordThenWs w cs)) || delimScan ws cs

/-- Whether another question mark occurs before any line terminator. -/
def qBeforeNewline : List Char → Bool
  | [] => false
  | c :: cs => if c = '?' then true else if isLineTerm c then false else qBeforeNewline cs

/-- JS test of the regex: question mark, dot-star, question mark (two
question marks with no line terminator between them). -/
def hasTwoQuestions : List Char → Bool
  | [] => false
  | c :: cs => (c = '?' && qBeforeNewline cs) || hasTwoQuestions cs

/-- Deduplicate keeping the first occurrence of each element
(JS Set insertion order). -/
def dedupFirst (l : List String) : List String :=
  go [] l
where
  go (seen : List String) : List String → List String
    | [] => []
    | x :: xs => if seen.contains x then go seen xs else x :: go (x :: seen) xs

/-- ASCII lowercasing: the effect of JS toLowerCase on the ASCII range
(code points outside the ASCII letters are left alone). -/
def js_to_lower (s : String) : String :=
  String.mk (s.toList.map (fun c =>
    if 'A' ≤ c && c ≤ 'Z' then Char.ofNat (c.toNat + 32) else c))

/-- JS s.split on a single-space separator (no run coalescing, empty
pieces kept). -/
def split_on_space_go : List Char → List Char → List String
  | [], acc => [String.mk acc.reverse]
  | c :: cs, acc =>
    if c = ' ' then String.mk acc.reverse :: split_on_space_go cs []
    else split_on_space_go cs (c :: acc)

/-- JS s.split of a string on a single space. -/
def split_on_space (s : String) : List String :=
  split_on_space_go s.toList []

/-! Query analyzer (src/common/query-analyzer.ts). -/

/-- Query type labels of QueryCharacteristics.query_type. -/
inductive QueryType
  | factual | technical | academic | current_events | code
  | general | local_ | product | definition | how_to
deriving DecidableEq

/-- The string literal of the TS union member. -/
def QueryType.str : QueryType → String
  | .factual => "factual"
  | .technical => "technical"
  | .academic => "academic"
  | .current_events => "current_events"
  | .code => "code"
  | .general => "general"
  | .local_ => "local"
  | .product => "product"
  | .definition => "definition"
  | .how_to => "how_to"

/-- Complexity labels. -/
inductive Complexity
  | simple | moderate | complex
deriving DecidableEq

/-- Sentiment labels. -/
inductive Sentiment
  | neutral | investigative | comparative
deriving DecidableEq

/-- QUERY_TYPE_INDICATORS, in declaration order (the order of
Object.entries over the literal). -/
def QUERY_TYPE_INDICATORS : List (QueryType × List String) :=
  [ (.factual, ["what is", "who is", "when did", "where is", "facts about", "definition of", "meaning of"]),
    (.technical, ["how to", "debug", "error", "api", "code", "programming", "software", "algorithm", "function", "method", "class", "bug", "fix", "implement", "configure", "setup", "install", "docker", "kubernetes", "git"]),
    (.academic, ["research", "study", "paper", "journal", "citation", "thesis", "academic", "scholarly", "peer review", "publication", "literature"]),
    (.current_events, ["latest", "recent", "today", "yesterday", "news", "current", "2024", "2025", "breaking", "update"]),
    (.code, ["python", "javascript", "typescript", "react", "vue", "angular", "java", "c++", "rust", "go", "nodejs", "npm", "yarn", "pip", "cargo", "maven"]),
    (.general, ["best", "top", "review", "compare", "vs", "versus", "recommend", "suggestion"]),
    (.local_, ["near me", "nearby", "local", "in my area", "close to"]),
    (.product, ["buy", "price", "cost", "cheap", "expensive", "deal", "discount", "shop", "amazon", "ebay"]),
    (.definition, ["define", "what is", "what are", "meaning", "definition", "explain"]),
    (.how_to, ["how to", "how do", "how can", "tutorial", "guide", "step by step", "instructions"]) ]

/-- QueryAnalyzer.detect_query_type: each type scores the sum, over its
matched indicators, of the indicator word count; the first type with the
strictly highest score wins, defaulting to general. -/
def detect_query_type (query : String) : QueryType :=
  let scores := QUERY_TYPE_INDICATORS.map (fun e =>
    (e.1, e.2.foldl (fun acc ind =>
      if str_includes query ind then acc + (split_on_space ind).length else acc) 0))
  (scores.foldl (fun best e => if best.2 < e.2 then e else best) (QueryType.general, 0)).1

/-- QueryAnalyzer.check_recency_requirement. -/
def check_recency_requirement (query : String) : Bool :=
  [ "latest", "recent", "today", "yesterday", "current", "now",
    "breaking", "update", "news", "2024", "2025", "this week",
    "this month", "this year", "real-time", "live" ].any (fun ind => str_includes query ind)

/-- QueryAnalyzer.assess_complexity: word-count band plus clause,
comparison and multi-question bonuses; the clause and comparison regexes
carry the i flag, so both sides are lowercased. -/
def assess_complexity (query : String) : Complexity :=
  let word_count := (js_split_ws query).length
  let ql := js_to_lower query
  let s0 : Nat := if 15 < word_count then 2 else if 8 < word_count then 1 else 0
  let s1 := s0 + (if hasDelimWord ["and", "or", "but", "with", "without", "except"] ql then 1 else 0)
  let s2 := s1 + (if hasDelimWord ["vs", "versus", "compare", "better", "worse", "than"] ql then 1 else 0)
  let score := s2 + (if hasTwoQuestions query.toList then 2 else 0)
  if 3 ≤ score then .complex else if 1 ≤ score then .moderate else .simple

/-- QueryAnalyzer.has_search_operators (case-sensitive substring tests on
the original query). -/
def has_search_operators (query : String) : Bool :=
  [ "site:", "intitle:", "inurl:", "filetype:", "ext:",
    "-site:", "before:", "after:", "related:", "cache:",
    "\"", "AND", "OR", "NOT" ].any (fun op => str_includes query op)

/-- QueryAnalyzer.detect_sentiment (called on the lowercased query). -/
def detect_sentiment (query : String) : Sentiment :=
  if hasDelimWord ["vs", "versus", "compare", "better", "worse", "difference"] query then .comparative
  else if hasDelimWord ["why", "how", "investigate", "analyze", "understand", "explain"] query then .investigative
  else .neutral

/-- COMMON_STOP_WORDS of QueryAnalyzer, in source order. -/
def COMMON_STOP_WORDS : List String :=
  [ "the", "is", "at", "which", "on", "a", "an", "as", "are", "was",
    "were", "been", "be", "have", "has", "had", "do", "does", "did",
    "will", "would", "could", "should", "may", "might", "must", "can",
    "this", "that", "these", "those", "i", "you", "he", "she", "it",
    "we", "they", "what", "which", "who", "when", "where", "why", "how",
    "all", "each", "every", "both", "few", "more", "most", "other",
    "some", "such", "no", "not", "only", "own", "same", "so", "than",
    "too", "very", "just", "in", "for", "of", "to", "from", "with" ]

/-- Character class of the JS regex class backslash-w. -/
def isWordChar (c : Char) : Bool :=
  ('a' ≤ c && c ≤ 'z') || ('A' ≤ c && c ≤ 'Z') || ('0' ≤ c && c ≤ '9') || c = '_'

/-- QueryAnalyzer.extract_keywords: lowercase, replace every character
that is neither a word character nor whitespace by a space, split on
whitespace, keep words longer than 2 that are not stop words, dedupe. -/
def extract_keywords (query : String) : List String :=
  let cleaned := String.mk ((js_to_lower query).toList.map
    (fun c => if isWordChar c || isJsWs c then c else ' '))
  dedupFirst ((js_split_ws cleaned).filter
    (fun w => 2 < w.length && !(COMMON_STOP_WORDS.contains w)))

/-- QueryAnalyzer.determine_intent. -/
def determine_intent (query_type : QueryType) (sentiment : Sentiment)
    (keywords : List String) : String :=
  if query_type = .how_to then "learn_process"
  else if query_type = .definition then "understand_concept"
  else if query_type = .academic then "research"
  else if query_type = .current_events then "stay_informed"
  else if query_type = .product then "purchase_decision"
  else if query_type = .technical && keywords.any (fun k => k = "error" || k = "bug" || k = "fix") then "troubleshoot"
  else if sentiment = .comparative then "compare_options"
  else if sentiment = .investigative then "deep_understanding"
  else "general_information"

/-! Domain extraction: an executable backtracking matcher for the global
regex of QueryAnalyzer.extract_domains, namely an optional selector
(site:, from:, on with whitespace, or at-sign), one or more DNS labels
each ending in a dot, and a final run of at least two letters.  Each
helper returns the possible remainders after its pattern piece, in the
order the JS backtracking engine tries them (greedy quantifiers longest
first, alternatives in source order). -/

/-- Character class a-z A-Z. -/
def isAsciiAlpha (c : Char) : Bool :=
  ('a' ≤ c && c ≤ 'z') || ('A' ≤ c && c ≤ 'Z')

/-- Character class a-z A-Z 0-9. -/
def isAsciiAlnum (c : Char) : Bool :=
  isAsciiAlpha c || ('0' ≤ c && c ≤ '9')

/-- Character class of a DNS label interior: alphanumeric or hyphen. -/
def isLabelChar (c : Char) : Bool :=
  isAsciiAlnum c || c = '-'

/-- Remainders after the alternative: literal on followed by one or more
whitespace characters (greedy, so maximal consumption first). -/
def onWsRems : List Char → List (List Char)
  | 'o' :: 'n' :: rest =>
    let w := (takeRun isJsWs rest).1.length
    (List.range w).map (fun i => rest.drop (w - i))
  | _ => []

/-- Remainders after the optional selector group, in backtracking order:
site:, from:, on with whitespace, at-sign, then the empty alternative. -/
def selectorRems (cs : List Char) : List (List Char) :=
  (if charsStartWith "site:".toList cs then [cs.drop 5] else []) ++
  (if charsStartWith "from:".toList cs then [cs.drop 5] else []) ++
  onWsRems cs ++
  (if charsStartWith "@".toList cs then [cs.drop 1] else []) ++
  [cs]

/-- Remainders after one DNS label: an alphanumeric, up to 61 label
characters (greedy), and an optional trailing alphanumeric (greedy). -/
def labelRems : List Char → List (List Char)
  | [] => []
  | c :: rest =>
    if isAsciiAlnum c then
      let m := min 61 ((takeRun isLabelChar rest).1.length)
      (List.range (m + 1)).flatMap (fun i =>
        let r := rest.drop (m - i)
        (match r with
         | d :: r2 => if isAsciiAlnum d then [r2] else []
         | [] => []) ++ [r])
    else []

/-- Remainders after one DNS label followed by a literal dot. -/
def labelDotRems (cs : List Char) : List (List Char) :=
  (labelRems cs).filterMap (fun r =>
    match r with
    | '.' :: r2 => some r2
    | _ => none)

/-- Remainders after one or more label-dot groups (greedy: longer
repetitions first).  Every group consumes at least two characters, so
fuel equal to the input length suffices. -/
def plusRems : Nat → List Char → List (List Char)
  | 0, _ => []
  | fuel + 1, cs => (labelDotRems cs).flatMap (fun r => plusRems fuel r ++ [r])

/-- Length of the whole-regex match starting at the head of cs, if any:
the first candidate in backtracking order whose tail has a run of at
least two letters. -/
def domainMatchLen (cs : List Char) : Option Nat :=
  (selectorRems cs).findSome? (fun pre =>
    (plusRems cs.length pre).findSome? (fun g =>
      let k := (takeRun isAsciiAlpha g).1.length
      if 2 ≤ k then some (cs.length - g.length + k) else none))

/-- Global scan: leftmost match, then continue after its end. -/
def domainScan : Nat → List Char → List String
  | 0, _ => []
  | _, [] => []
  | fuel + 1, c :: cs =>
    match domainMatchLen (c :: cs) with
    | some len => String.mk ((c :: cs).take len) :: domainScan fuel ((c :: cs).drop len)
    | none => domainScan fuel cs

/-- The anchored selector-stripping replace applied to each match. -/
def stripSelector (s : String) : String :=
  let cs := s.toList
  if charsStartWith "site:".toList cs then String.mk (cs.drop 5)
  else if charsStartWith "from:".toList cs then String.mk (cs.drop 5)
  else
    match cs with
    | 'o' :: 'n' :: rest =>
      let w := (takeRun isJsWs rest).1.length
      if 1 ≤ w then String.mk (rest.drop w) else s
    | '@' :: rest => String.mk rest
    | _ => s

/-- QueryAnalyzer.extract_domains. -/
def extract_domains (query : String) : List String :=
  dedupFirst ((domainScan (query.toList.length + 1) query.toList).map stripSelector)

/-- Output record of QueryAnalyzer.analyze_query. -/
structure QueryCharacteristics where
  query_type : QueryType
  domains_mentioned : List String
  requires_recency : Bool
  complexity : Complexity
  language : String
  has_operators : Bool
  sentiment : Sentiment
  likely_intent : String
  keywords : List String
deriving DecidableEq

/-- QueryAnalyzer.analyze_query. -/
def analyze_query (query : String) : QueryCharacteristics :=
  let query_lower := js_to_lower query
  let query_type := detect_query_type query_lower
  let domains_mentioned := extract_domains query
  let requires_recency := check_recency_requirement query_lower
  let complexity := assess_complexity query
  let has_ops := has_search_operators query
  let sentiment := detect_sentiment query_lower
  let keywords := extract_keywords query_lower
  { query_type := query_type
    domains_mentioned := domains_mentioned
    requires_recency := requires_recency
    complexity := complexity
    language := "en"
    has_operators := has_ops
    sentiment := sentiment
    likely_intent := determine_intent query_type sentiment keywords
    keywords := keywords }

/-- Static capability entry of PROVIDER_STRENGTHS.  The fractional
constants of the source (recency_score, complexity_handling,
operator_support, all exact multiples of one tenth) are stored in tenths;
the source only compares them against the thresholds 0.8 and 0.9, which
become 8 and 9. -/
structure ProviderStrength where
  strong_for : List String
  good_with_domains : List String
  recency10 : Nat
  complexity10 : Nat
  operator10 : Nat
  no_ads : Bool := false
  privacy_focused : Bool := false
  ai_powered : Bool := false
  fast_response : Bool := false
deriving DecidableEq

/-- PROVIDER_STRENGTHS table of QueryAnalyzer. -/
def PROVIDER_STRENGTHS : String → Option ProviderStrength
  | "tavily" => some
    { strong_for := ["factual", "academic", "definition", "general"]
      good_with_domains := ["wikipedia.org", "edu", "gov", "org"]
      recency10 := 8, complexity10 := 9, operator10 := 7 }
  | "kagi" => some
    { strong_for := ["technical", "code", "how_to", "general"]
      good_with_domains := ["github.com", "stackoverflow.com", "dev.to", "medium.com"]
      recency10 := 7, complexity10 := 9, operator10 := 9
      no_ads := true, privacy_focused := true }
  | "brave" => some
    { strong_for := ["general", "current_events", "technical"]
      good_with_domains := ["*"]
      recency10 := 8, complexity10 := 7, operator10 := 9
      privacy_focused := true }
  | "perplexity" => some
    { strong_for := ["complex", "academic", "factual", "how_to"]
      good_with_domains := ["*"]
      recency10 := 9, complexity10 := 10, operator10 := 6
      ai_powered := true }
  | "kagi_fastgpt" => some
    { strong_for := ["general", "factual", "definition"]
      good_with_domains := ["*"]
      recency10 := 7, complexity10 := 8, operator10 := 5
      ai_powered := true, fast_response := true }
  | _ => none

/-- One entry of the ranked provider-score list. -/
structure ProviderScore where
  provider : String
  score : Nat
  reasons : List String
deriving DecidableEq

/-- Score of one candidate inside QueryAnalyzer.score_providers; none
when the provider has no strengths entry (the source loop skips it). -/
def score_one (c : QueryCharacteristics) (provider : String) : Option ProviderScore :=
  match PROVIDER_STRENGTHS provider with
  | none => none
  | some st =>
    let base : Nat × List String := (50, [])
    let b1 :=
      if st.strong_for.contains c.query_type.str then
        (base.1 + 30, base.2 ++ ["Excellent for " ++ c.query_type.str ++ " queries"])
      else if c.query_type = .general then (base.1 + 10, base.2)
      else base
    let b2 :=
      if c.complexity = .complex ∧ 9 ≤ st.complexity10 then
        (b1.1 + 20, b1.2 ++ ["Handles complex queries well"])
      else if c.complexity = .simple ∧ st.fast_response = true then
        (b1.1 + 15, b1.2 ++ ["Fast for simple queries"])
      else b1
    let b3 :=
      if c.requires_recency = true ∧ 8 ≤ st.recency10 then
        (b2.1 + 20, b2.2 ++ ["Good with recent information"])
      else b2
    let b4 :=
      if c.has_operators = true ∧ 8 ≤ st.operator10 then
        (b3.1 + 15, b3.2 ++ ["Strong operator support"])
      else b3
    let covered := if 0 < c.domains_mentioned.length then
        c.domains_mentioned.find? (fun d =>
          st.good_with_domains.contains "*" ||
          st.good_with_domains.any (fun g => str_includes d g))
      else none
    let b5 := match covered with
      | some d => (b4.1 + 10, b4.2 ++ ["Good with " ++ d])
      | none => b4
    let b6 :=
      if st.ai_powered = true ∧ c.complexity = .complex then
        (b5.1 + 10, b5.2 ++ ["AI-powered analysis"])
      else b5
    let b7 :=
      if st.privacy_focused = true ∧ c.query_type ≠ .academic then
        (b6.1 + 5, b6.2 ++ ["Privacy-focused"])
      else b6
    let b8 :=
      if st.no_ads = true ∧ c.query_type = .technical then
        (b7.1 + 10, b7.2 ++ ["No ads, clean results"])
      else b7
    some { provider := provider, score := b8.1, reasons := b8.2 }

/-- QueryAnalyzer.score_providers: score each candidate with a strengths
entry, then sort by score descending; the JS sort is stable, which the
insertion sort reproduces. -/
def score_providers (c : QueryCharacteristics) (available_providers : List String) : List ProviderScore :=
  List.insertionSort (fun a b => b.score ≤ a.score) (available_providers.filterMap (score_one c))

/-- Output of QueryAnalyzer.get_recommended_provider. -/
structure Recommendation where
  provider : String
  confidence : Nat
  reasoning : String
  alternatives : List String
deriving DecidableEq

/-- QueryAnalyzer.get_recommended_provider. -/
def get_recommended_provider (query : String) (available_providers : List String) : Recommendation :=
  let characteristics := analyze_query query
  match score_providers characteristics available_providers with
  | [] =>
    { provider := available_providers.headD ""
      confidence := 0
      reasoning := "No suitable provider found"
      alternatives := [] }
  | top :: rest =>
    { provider := top.provider
      confidence := min 100 (max 0 top.score)
      reasoning := "Query type: " ++ characteristics.query_type.str ++ ". " ++
        String.intercalate ". " top.reasons ++ "."
      alternatives := (rest.take 2).map (fun s => s.provider) }

/-! Provider health manager (src/common/provider-health.ts, supplied as
an unnamed source file).  ErrorType and ProviderError live in
src/common/types.ts, which is not among the provided sources; the enum
members below are the ones the provided health-manager, orchestrator and
unit-test sources reference, plus TIMEOUT from the documented taxonomy.
JS Date values are milliseconds as Nat. -/

inductive ErrorType
  | API_ERROR | RATE_LIMIT | INVALID_INPUT | PROVIDER_ERROR
  | AUTHENTICATION_ERROR | CREDIT_EXHAUSTED | QUOTA_EXCEEDED | TIMEOUT
deriving DecidableEq, BEq

/-- The details payload of ProviderError, as read by the health manager. -/
structure ErrorDetails where
  reset_time : Option Nat := none
deriving DecidableEq

/-- ProviderError of src/common/types.ts. -/
structure ProviderError where
  type : ErrorType
  message : String
  provider : String
  details : Option ErrorDetails := none
deriving DecidableEq

/-- ProviderHealth record. -/
structure ProviderHealth where
  name : String
  available : Bool
  last_error : Option ProviderError := none
  last_success : Option Nat := none
  failure_count : Nat
  rate_limited_until : Option Nat := none
  circuit_breaker_open : Bool
  circuit_breaker_open_until : Option Nat := none
deriving DecidableEq

/-- ProviderHealthManager.register_provider: the fresh record. -/
def register_health (name : String) : ProviderHealth :=
  { name := name, available := true, failure_count := 0, circuit_breaker_open := false }

/-- The object returned by ProviderConfigManager.get_fallback_settings. -/
structure FallbackSettings where
  enabled : Bool
  delay_ms : Nat
  circuit_breaker_threshold : Nat
  circuit_breaker_timeout_ms : Nat
deriving DecidableEq

/-- ProviderHealthManager.record_failure on one health record (the
manager is a no-op when the provider has no record).  The settings come
from provider_config.get_fallback_settings. -/
def record_failure (settings : FallbackSettings) (now : Nat)
    (error : ProviderError) (health : ProviderHealth) : ProviderHealth :=
  let h := { health with last_error := some error, failure_count := health.failure_count + 1 }
  match error.type with
  | .RATE_LIMIT =>
    let reset := match error.details with
      | some d => match d.reset_time with
        | some t => t
        | none => now + 60 * 60 * 1000
      | none => now + 60 * 60 * 1000
    { h with rate_limited_until := some reset, available := false }
  | .CREDIT_EXHAUSTED =>
    { h with rate_limited_until := some (now + 24 * 60 * 60 * 1000), available := false }
  | .QUOTA_EXCEEDED =>
    { h with rate_limited_until := some (now + 24 * 60 * 60 * 1000), available := false }
  | .AUTHENTICATION_ERROR => { h with available := false }
  | .API_ERROR =>
    if str_includes error.message "credit" || str_includes error.message "quota" ||
        str_includes error.message "limit" then
      { h with rate_limited_until := some (now + 24 * 60 * 60 * 1000), available := false }
    else if str_includes error.message "Invalid API key" ||
        str_includes error.message "Unauthorized" then
      { h with available := false }
    else h
  | .PROVIDER_ERROR =>
    if settings.circuit_breaker_threshold ≤ h.failure_count then
      { h with circuit_breaker_open := true,
               circuit_breaker_open_until := some (now + settings.circuit_breaker_timeout_ms),
               available := false }
    else h
  | _ => h

/-- ProviderHealthManager.record_success on one health record. -/
def record_success (now : Nat) (health : ProviderHealth) : ProviderHealth :=
  { health with
    available := true
    last_success := some now
    failure_count := 0
    circuit_breaker_open := false
    circuit_breaker_open_until := none
    rate_limited_until := none
    last_error := none }

/-- ProviderHealthManager.is_provider_available on one health record:
lazy expiry of the rate limit (strict now greater than the stamp), lazy
expiry of the breaker, halving of the failure count after a recent
success, then the availability conjunction.  The record is mutated, so
the updated record is returned with the answer. -/
def is_provider_available_health (now : Nat) (health : ProviderHealth) : Bool × ProviderHealth :=
  let h1 := match health.rate_limited_until with
    | some u => if u < now then { health with rate_limited_until := none, available := true } else health
    | none => health
  let h2 := match h1.circuit_breaker_open_until with
    | some u => if u < now then
        { h1 with
          circuit_breaker_open := false
          circuit_breaker_open_until := none
          failure_count := 0
          available := true }
      else h1
    | none => h1
  let h3 := match h2.last_success with
    | some s => if now - s < 30 * 60 * 1000 then
        (if 0 < h2.failure_count then { h2 with failure_count := h2.failure_count / 2 } else h2)
      else h2
    | none => h2
  let ok := h3.available && !h3.circuit_breaker_open &&
    (match h3.rate_limited_until with
     | none => true
     | some u => decide (u < now))
  (ok, h3)

/-- The health map of the manager (name to record, insertion order). -/
abbrev HealthMap := List (String × ProviderHealth)

/-- Replace the binding of a name in the health map. -/
def hm_set : HealthMap → String → ProviderHealth → HealthMap
  | [], _, _ => []
  | (n, h) :: rest, name, h2 =>
    if n = name then (n, h2) :: rest else (n, h) :: hm_set rest name h2

/-- ProviderHealthManager.is_provider_available at the map level: false
for unknown providers, otherwise the record-level check with the mutated
record written back. -/
def is_provider_available (now : Nat) (hm : HealthMap) (name : String) : Bool × HealthMap :=
  match hm.lookup name with
  | none => (false, hm)
  | some h =>
    let r := is_provider_available_health now h
    (r.1, hm_set hm name r.2)

/-! Provider configuration (src/config/provider-config.ts).  Priorities
are JS numbers; Int keeps arbitrary runtime values, and the falsy-zero
fallback of the sort comparator is modelled explicitly. -/

/-- Per-provider configuration entry. -/
structure ProviderConfiguration where
  enabled : Bool
  priority : Int
  preferred_for : List String := []
  max_retries : Option Nat := none
  timeout : Option Nat := none
deriving DecidableEq

inductive ProviderMode
  | direct | unified
deriving DecidableEq

/-- SearchConfiguration. -/
structure SearchConfiguration where
  mode : ProviderMode
  providers : List (String × ProviderConfiguration)
  fallback_enabled : Bool
  fallback_delay_ms : Nat
  circuit_breaker_threshold : Nat
  circuit_breaker_timeout_ms : Nat
deriving DecidableEq

/-- DEFAULT_SEARCH_CONFIG. -/
def DEFAULT_SEARCH_CONFIG : SearchConfiguration :=
  { mode := .direct
    providers :=
      [ ("tavily", { enabled := true, priority := 1
                     preferred_for := ["factual", "research", "academic", "scientific"]
                     max_retries := some 2, timeout := some 30000 }),
        ("kagi", { enabled := true, priority := 2
                   preferred_for := ["technical", "documentation", "privacy"]
                   max_retries := some 2, timeout := some 30000 }),
        ("brave", { enabled := true, priority := 3
                    preferred_for := ["general", "privacy", "technical"]
                    max_retries := some 2, timeout := some 30000 }),
        ("perplexity", { enabled := true, priority := 1
                         preferred_for := ["comprehensive", "ai", "analysis"]
                         max_retries := some 2, timeout := some 45000 }),
        ("kagi_fastgpt", { enabled := true, priority := 2
                           preferred_for := ["quick", "summary", "ai"]
                           max_retries := some 2, timeout := some 45000 }) ]
    fallback_enabled := true
    fallback_delay_ms := 500
    circuit_breaker_threshold := 3
    circuit_breaker_timeout_ms := 5 * 60 * 1000 }

/-- ProviderConfigManager.is_provider_enabled. -/
def is_provider_enabled (cfg : SearchConfiguration) (provider : String) : Bool :=
  match cfg.providers.lookup provider with
  | some c => c.enabled
  | none => false

/-- The category union used by the priority query. -/
inductive Category
  | search | ai_response
deriving DecidableEq

/-- The comparator key of get_providers_by_priority: the priority of the
provider, with 999 when the entry is missing or the priority is the
falsy number zero. -/
def provider_sort_priority (cfg : SearchConfiguration) (name : String) : Int :=
  match cfg.providers.lookup name with
  | some c => if c.priority = 0 then 999 else c.priority
  | none => 999

/-- ProviderConfigManager.get_providers_by_priority: the fixed category
list, filtered to enabled providers and stably sorted by priority. -/
def get_providers_by_priority (cfg : SearchConfiguration) (category : Category) : List String :=
  let ai_providers := ["perplexity", "kagi_fastgpt"]
  let search_providers := ["tavily", "kagi", "brave"]
  let relevant := if category = .ai_response then ai_providers else search_providers
  List.insertionSort
    (fun a b => provider_sort_priority cfg a ≤ provider_sort_priority cfg b)
    (relevant.filter (fun n => is_provider_enabled cfg n))

/-- ProviderConfigManager.get_fallback_settings. -/
def get_fallback_settings (cfg : SearchConfiguration) : FallbackSettings :=
  { enabled := cfg.fallback_enabled
    delay_ms := cfg.fallback_delay_ms
    circuit_breaker_threshold := cfg.circuit_breaker_threshold
    circuit_breaker_timeout_ms := cfg.circuit_breaker_timeout_ms }

/-- The filter of ProviderHealthManager.get_available_providers,
threading the health map through the availability probes in list order
(each probe may mutate its record by lazy expiry). -/
def filter_available (cfg : SearchConfiguration) (now : Nat) :
    List String → HealthMap → List String × HealthMap
  | [], hm => ([], hm)
  | n :: rest, hm =>
    let a := is_provider_available now hm n
    let keep := a.1 && is_provider_enabled cfg n
    let r := filter_available cfg now rest a.2
    (if keep then n :: r.1 else r.1, r.2)

/-- ProviderHealthManager.get_available_providers. -/
def get_available_providers (cfg : SearchConfiguration) (category : Category)
    (hm : HealthMap) (now : Nat) : List String × HealthMap :=
  filter_available cfg now (get_providers_by_priority cfg category) hm

/-! Performance tracker (an unnamed source file):
get_adaptive_provider_ranking.  The per-provider weighted score is
floating-point arithmetic over the mutable statistics; it is abstracted
as a rational-valued function of the provider (the source pushes the
flat score one half when the provider has no stats, otherwise the
weighted combination).  The ranking structure — exactly one scored entry
per candidate, stable sort by score descending, names only — is
embedded. -/
def get_adaptive_provider_ranking (score : String → ℚ)
    (available_providers : List String) : List String :=
  (List.insertionSort (fun a b => b.2 ≤ a.2)
    (available_providers.map (fun p => (p, score p)))).map (fun sp => sp.1)

/-! Search orchestrator (an unnamed source file). -/

/-- SearchResult of src/common/types.ts. -/
structure SearchResult where
  title : String
  url : String
  snippet : String
  score : Option ℚ := none
  source_provider : String
deriving DecidableEq

/-- A thrown JS value inside the orchestrator: a ProviderError or a
plain Error (such as the search timeout). -/
inductive Thrown
  | provider (e : ProviderError)
  | generic (message : String)
deriving DecidableEq

/-- The message of the thrown value. -/
def Thrown.msg : Thrown → String
  | .provider e => e.message
  | .generic m => m

/-- The query_analysis block of UnifiedSearchResult. -/
structure QueryAnalysisOut where
  type : String
  recommended_provider : String
  confidence : Nat
  reasoning : String
deriving DecidableEq

/-- UnifiedSearchResult. -/
structure UnifiedSearchResult where
  results : List SearchResult
  provider_used : String
  fallback_attempts : List String
  total_time_ms : Nat
  success : Bool
  error : Option String := none
  query_analysis : Option QueryAnalysisOut := none
deriving DecidableEq

/-- SearchOrchestrator.combine_provider_rankings with
CONFIDENCE_THRESHOLD 70: a truthy (non-empty) recommended provider with
confidence above the threshold goes first, ahead of the adaptive ranking
with that provider filtered out; otherwise the adaptive ranking stands. -/
def combine_provider_rankings (recommendation : Recommendation)
    (adaptive_ranking : List String) : List String :=
  if recommendation.provider ≠ "" ∧ 70 < recommendation.confidence then
    recommendation.provider :: adaptive_ranking.filter (fun p => p ≠ recommendation.provider)
  else adaptive_ranking

/-- Outcome of the provider loop of unified_search and
unified_ai_search. -/
inductive LoopOut
  | success (provider : String) (results : List SearchResult) (attempts : List String)
  | exhausted (attempts : List String)

/-- The try-each-provider loop: attempt is the outcome of
attempt_search for the named provider; a failing provider is appended to
fallback_attempts and the loop continues.  Health and performance
recording mutate external state only and do not affect the envelope, and
the inter-provider delay has no observable effect here. -/
def fallback_loop (attempt : String → Except Thrown (List SearchResult)) :
    List String → List String → LoopOut
  | [], acc => .exhausted acc
  | n :: rest, acc =>
    match attempt n with
    | .ok rs => .success n rs acc
    | .error _ => fallback_loop attempt rest (acc ++ [n])

/-- SearchOrchestrator.unified_search, from the point where the
available list (health-filtered, registered, enabled) is known:
recommendation and adaptive ranking are combined into the dispatch
order; an empty order short-circuits; with fallback disabled only the
first provider is tried; otherwise the loop runs.  The elapsed argument
stands for the wall-clock total_time_ms of the envelope. -/
def unified_search (fallback : FallbackSettings) (query : String)
    (available : List String) (adaptScore : String → ℚ)
    (attempt : String → Except Thrown (List SearchResult))
    (elapsed : Nat) : UnifiedSearchResult :=
  let recommendation := get_recommended_provider query available
  let adaptive := get_adaptive_provider_ranking adaptScore available
  let providers := combine_provider_rankings recommendation adaptive
  if providers.isEmpty then
    { results := [], provider_used := "", fallback_attempts := []
      total_time_ms := elapsed, success := false
      error := some "No search providers available" }
  else if fallback.enabled = false then
    let first := providers.headD ""
    match attempt first with
    | .ok rs =>
      { results := rs, provider_used := first, fallback_attempts := []
        total_time_ms := elapsed, success := true }
    | .error e =>
      { results := [], provider_used := "", fallback_attempts := [first]
        total_time_ms := elapsed, success := false
        error := some ("Provider " ++ first ++ " failed: " ++ e.msg) }
  else
    match fallback_loop attempt providers [] with
    | .success p rs atts =>
      { results := rs, provider_used := p, fallback_attempts := atts
        total_time_ms := elapsed, success := true
        query_analysis := some
          { type := (analyze_query query).query_type.str
            recommended_provider := recommendation.provider
            confidence := recommendation.confidence
            reasoning := recommendation.reasoning } }
    | .exhausted atts =>
      { results := [], provider_used := "", fallback_attempts := atts
        total_time_ms := elapsed, success := false
        error := some ("All " ++ toString providers.length ++ " search providers failed") }

/-- SearchOrchestrator.unified_ai_search from the point where the
available list is known: no recommendation step, the loop runs over the
priority-ordered available list directly (the source consults
fallback_settings only for the inter-provider delay here). -/
def unified_ai_search (available : List String)
    (attempt : String → Except Thrown (List SearchResult))
    (elapsed : Nat) : UnifiedSearchResult :=
  if available.isEmpty then
    { results := [], provider_used := "", fallback_attempts := []
      total_time_ms := elapsed, success := false
      error := some "No AI response providers available" }
  else
    match fallback_loop attempt available [] with
    | .success p rs atts =>
      { results := rs, provider_used := p, fallback_attempts := atts
        total_time_ms := elapsed, success := true }
    | .exhausted atts =>
      { results := [], provider_used := "", fallback_attempts := atts
        total_time_ms := elapsed, success := false
        error := some ("All " ++ toString available.length ++ " AI response providers failed") }

/-- Trace of one SearchOrchestrator.attempt_search call: the value
returned or thrown, the number of attempts performed, and the backoff
delays slept between attempts. -/
structure AttemptTrace where
  result : Except Thrown (List SearchResult)
  attempts_made : Nat
  delays : List Nat

/-- The no-retry test of attempt_search: a ProviderError of kind
RATE_LIMIT or INVALID_INPUT, or whose message contains the substring
Invalid API key, is rethrown immediately. -/
def non_retryable (e : Thrown) : Bool :=
  match e with
  | .provider pe =>
    pe.type == ErrorType.RATE_LIMIT || pe.type == ErrorType.INVALID_INPUT ||
    str_includes pe.message "Invalid API key"
  | .generic _ => false

/-- max_retries of attempt_search. -/
def MAX_RETRIES : Nat := 2

/-- The retry loop of attempt_search.  outcomes gives the result of the
i-th provider call (a timeout of the 30 s race appears as a generic
thrown Error); remaining is the number of loop iterations left. -/
def attempt_search_aux (outcomes : Nat → Except Thrown (List SearchResult)) :
    Nat → Nat → Nat → List Nat → Option Thrown → AttemptTrace
  | 0, made, _, delays, last =>
    ⟨.error (last.getD (.generic "Unknown error during search")), made, delays⟩
  | remaining + 1, made, attempt, delays, _ =>
    match outcomes attempt with
    | .ok rs => ⟨.ok rs, made + 1, delays⟩
    | .error e =>
      if non_retryable e then ⟨.error e, made + 1, delays⟩
      else if attempt < MAX_RETRIES then
        attempt_search_aux outcomes remaining (made + 1) (attempt + 1)
          (delays ++ [min (1000 * 2 ^ attempt) 5000]) (some e)
      else attempt_search_aux outcomes remaining (made + 1) (attempt + 1) delays (some e)

/-- SearchOrchestrator.attempt_search as a trace. -/
def attempt_search_trace (outcomes : Nat → Except Thrown (List SearchResult)) : AttemptTrace :=
  attempt_search_aux outcomes (MAX_RETRIES + 1) 0 0 [] none

/-! State manager (an unnamed source file): load_state. -/

/-- QueryPerformanceRecord of the performance tracker, with timestamps
as milliseconds. -/
structure QueryPerformanceRecord where
  query : String
  characteristics : QueryCharacteristics
  provider_used : String
  success : Bool
  response_time_ms : Nat
  result_count : Nat
  timestamp : Nat
  error_type : Option String := none
  user_feedback : Option String := none
deriving DecidableEq

/-- PersistedState.  The configuration_overrides block is opaque to
load_state and kept abstract; the version field is optional because the
JSON document may lack it. -/
structure PersistedState where
  provider_health : List (String × ProviderHealth)
  performance_records : List QueryPerformanceRecord
  configuration_overrides : List (String × String)
  last_updated : String
  version : Option String
deriving DecidableEq

/-- The possible outcomes of the I/O-and-parse pipeline feeding
StateManager.load_state. -/
inductive LoadInput
  | disabled
  | missingFile
  | ioError (message : String)
  | badJson (message : String)
  | doc (state : PersistedState)
deriving DecidableEq

/-- JS arr.slice(-n) for a nonnegative count: the last n elements,
except that negative zero is plain zero, so n = 0 yields the whole
array. -/
def slice_last (n : Nat) (l : List α) : List α :=
  if n = 0 then l else l.drop (l.length - n)

/-- The body of StateManager.load_state with JS exceptions made
explicit: the disabled and missing-file paths return null, a read or
parse failure throws, a version field that is absent or differs from
1.0 returns null, and otherwise the document is returned with its
history capped (the timestamp revival is the identity on the
millisecond model). -/
def load_state_attempt (max_performance_records : Nat) (input : LoadInput) :
    Except String (Option PersistedState) :=
  match input with
  | .disabled => .ok none
  | .missingFile => .ok none
  | .ioError m => .error m
  | .badJson m => .error m
  | .doc st =>
    match st.version with
    | none => .ok none
    | some v =>
      if v = "1.0" then
        .ok (some { st with
          performance_records :=
            if max_performance_records < st.performance_records.length then
              slice_last max_performance_records st.performance_records
            else st.performance_records })
      else .ok none

/-- StateManager.load_state: the body above inside the catch that turns
any thrown error into null. -/
def load_state (max_performance_records : Nat) (input : LoadInput) : Option PersistedState :=
  match load_state_attempt max_performance_records input with
  | .ok v => v
  | .error _ => none

/-! Concrete instances and auxiliary definitions used by the theorems. -/

/-- Concrete snapshot with a mismatched version. -/
def c8_doc : PersistedState :=
  { provider_health := []
    performance_records := []
    configuration_overrides := []
    last_updated := "2024-01-01T00:00:00.000Z"
    version := some "2.0" }

/-- A provider health record sitting in a rate-limit cooldown until t0,
with the circuit breaker closed. -/
def RateLimitedAt (t0 : Nat) (h : ProviderHealth) : Prop :=
  h.available = false ∧ h.rate_limited_until = some t0 ∧
  h.circuit_breaker_open = false ∧ h.circuit_breaker_open_until = none

/-- Concrete rate-limit error with reset time 1000. -/
def c1_err : ProviderError :=
  { type := .RATE_LIMIT, message := "Rate limit exceeded", provider := "tavily"
    details := some { reset_time := some 1000 } }

/-- The default fallback settings (threshold 3, five minutes timeout). -/
def default_settings : FallbackSettings := get_fallback_settings DEFAULT_SEARCH_CONFIG

/-- Folding a fixed failure over a list of failure times
(consecutive record_failure calls, one per timestamp). -/
def apply_provider_failures (settings : FallbackSettings) (e : ProviderError)
    (ts : List Nat) (h : ProviderHealth) : ProviderHealth :=
  ts.foldl (fun acc t => record_failure settings t e acc) h

/-- The concrete query of scenario S1. -/
def s1_query : String := "how to implement WebSocket authentication in Node.js"

/-- A flat adaptive score (every provider one half, as for providers
with no recorded history). -/
def flat_score : String → ℚ := fun _ => 1 / 2

/-- A provider call that always throws a plain error. -/
def failing_attempt : String → Except Thrown (List SearchResult) :=
  fun _ => .error (.generic "boom")

/-- Per-attempt outcomes that always throw a plain (retryable) error. -/
def failing_outcomes : Nat → Except Thrown (List SearchResult) :=
  fun _ => .error (.generic "boom")

/-- Provider attempts that always throw an AUTHENTICATION_ERROR whose
message does not contain the substring Invalid API key. -/
def c5_auth_outcomes : Nat → Except Thrown (List SearchResult) :=
  fun _ => .error (.provider
    { type := .AUTHENTICATION_ERROR, message := "Unauthorized", provider := "kagi" })

/-- Concrete PROVIDER_ERROR used for the breaker scenarios. -/
def c2_err : ProviderError :=
  { type := .PROVIDER_ERROR, message := "Internal server error", provider := "kagi" }

/-- The ambient process state an impure analyzer could have read: the
clock, the mutable health map and the persisted snapshot.
QueryAnalyzer.analyze_query reads none of them — it consults only its
argument and the static readonly tables — so the embedding takes the
environment as an ignored parameter. -/
structure AnalyzerEnv where
  now_ms : Nat
  health : HealthMap
  persisted : Option PersistedState

/-- QueryAnalyzer.analyze_query as run in a process environment. -/
def analyze_query_at (env : AnalyzerEnv) (query : String) : QueryCharacteristics :=
  analyze_query query

/-! Theorems. -/

/-- Every failure increments the failure count: the increment happens
before the switch on the error kind, and no branch writes the count. -/
theorem record_failure_count (settings : FallbackSettings) (now : Nat)
    (e : ProviderError) (h : ProviderHealth) :
    (record_failure settings now e h).failure_count = h.failure_count + 1 := by
  obtain ⟨ty, msg, prov, det⟩ := e
  cases ty <;> first
    | rfl
    | (dsimp only [record_failure]; split_ifs <;> rfl)

/-- C9: for every provider health record and every error of any kind in
the taxonomy, record_failure increments failure_count by exactly one;
the increment is unconditional, not limited to PROVIDER_ERROR or
API_ERROR failures.  (At the manager level the update applies to the
record of a registered provider and is a no-op otherwise.) -/
theorem C9_failure_count_increment :
    ∀ (settings : FallbackSettings) (now : Nat) (e : ProviderError) (h : ProviderHealth),
      (record_failure settings now e h).failure_count = h.failure_count + 1 :=
  record_failure_count

/-- C8: a persisted snapshot whose version field is missing or differs
from 1.0 makes load_state return null, and any error thrown inside the
body (file read or JSON parse) is caught, so loading never propagates an
error across the StateManager boundary. -/
theorem C8_version_mismatch_soft (max_performance_records : Nat) (input : LoadInput) :
    (∀ st, input = .doc st → st.version ≠ some "1.0" →
      load_state max_performance_records input = none) ∧
    (∀ m, load_state_attempt max_performance_records input = .error m →
      load_state max_performance_records input = none) := by
  constructor
  · intro st hdoc hver
    subst hdoc
    cases hv : st.version with
    | none => simp [load_state, load_state_attempt, hv]
    | some v =>
      have hne : ¬ v = "1.0" := fun h => hver (by rw [hv, h])
      simp [load_state, load_state_attempt, hv, hne]
  · intro m hm
    unfold load_state
    rw [hm]

/-- Witness for C8: the concrete version-2.0 document loads as null, and
a concrete parse failure loads as null. -/
theorem C8_version_mismatch_soft_witness :
    load_state 1000 (LoadInput.doc c8_doc) = none ∧
    load_state 1000 (LoadInput.badJson "Unexpected token") = none :=
  ⟨(C8_version_mismatch_soft 1000 (LoadInput.doc c8_doc)).1 c8_doc rfl (by decide),
   (C8_version_mismatch_soft 1000 (LoadInput.badJson "Unexpected token")).2
     "Unexpected token" rfl⟩

/-- C1 (amended: the lazy expiry of is_provider_available compares with
strict greater-than, so the boundary call at t = t0 still reports
unavailable): after record_failure with a RATE_LIMIT error carrying
reset time t0, on a record whose breaker is closed, is_provider_available
returns false at every t ≤ t0 and leaves the cooldown in place, and
returns true at the first call with t > t0, that call clearing the
lapsed rate_limited_until field and setting available to true. -/
theorem C1_rate_limit_cooldown (settings : FallbackSettings) (now : Nat)
    (e : ProviderError) (h : ProviderHealth) (t0 : Nat)
    (hbo : h.circuit_breaker_open = false)
    (hbu : h.circuit_breaker_open_until = none)
    (hty : e.type = .RATE_LIMIT)
    (hdet : e.details = some { reset_time := some t0 }) :
    RateLimitedAt t0 (record_failure settings now e h) ∧
    (∀ h1 t, RateLimitedAt t0 h1 →
      (t ≤ t0 → (is_provider_available_health t h1).1 = false ∧
        RateLimitedAt t0 (is_provider_available_health t h1).2) ∧
      (t0 < t → (is_provider_available_health t h1).1 = true ∧
        (is_provider_available_health t h1).2.rate_limited_until = none ∧
        (is_provider_available_health t h1).2.available = true)) := by
  constructor
  · obtain ⟨ty, msg, prov, det⟩ := e
    cases hty
    cases hdet
    refine ⟨rfl, rfl, ?_, ?_⟩ <;> simpa [record_failure] using ‹_›
  · rintro ⟨nm, av, le, ls, fc, rl, bo, bu⟩ t ⟨hav, hrl, hbo1, hbu1⟩
    dsimp only at hav hrl hbo1 hbu1
    subst hav
    subst hrl
    subst hbo1
    subst hbu1
    constructor
    · intro hle
      have hnot : ¬ t0 < t := Nat.not_lt.mpr hle
      dsimp only [is_provider_available_health]
      rw [if_neg hnot]
      cases ls with
      | none => exact ⟨rfl, rfl, rfl, rfl, rfl⟩
      | some s =>
        dsimp only
        split_ifs <;> exact ⟨rfl, rfl, rfl, rfl, rfl⟩
    · intro hlt
      dsimp only [is_provider_available_health]
      rw [if_pos hlt]
      cases ls with
      | none => exact ⟨rfl, rfl, rfl⟩
      | some s =>
        dsimp only
        split_ifs <;> exact ⟨rfl, rfl, rfl⟩

/-- Witness for C1: on a freshly registered record, the failure at time
0 enters the cooldown state; the probe at 999 reports false and the
probe at 1001 reports true and clears the field. -/
theorem C1_rate_limit_cooldown_witness :
    RateLimitedAt 1000 (record_failure default_settings 0 c1_err (register_health "tavily")) ∧
    (is_provider_available_health 999
      (record_failure default_settings 0 c1_err (register_health "tavily"))).1 = false ∧
    (is_provider_available_health 1001
      (record_failure default_settings 0 c1_err (register_health "tavily"))).1 = true ∧
    (is_provider_available_health 1001
      (record_failure default_settings 0 c1_err (register_health "tavily"))).2.rate_limited_until = none := by
  have h := C1_rate_limit_cooldown default_settings 0 c1_err (register_health "tavily") 1000
    rfl rfl rfl rfl
  exact ⟨h.1, ((h.2 _ 999 h.1).1 (by decide)).1,
    ((h.2 _ 1001 h.1).2 (by decide)).1, ((h.2 _ 1001 h.1).2 (by decide)).2.1⟩

/-- Counterexample to C1 as stated: the claim asserts availability at
the first call with t greater than or equal to t0, but the call at
exactly t = t0 = 1000 still returns false, because the source compares
the clock with strict greater-than when expiring the cooldown. -/
theorem C1_boundary_counterexample :
    (is_provider_available_health 1000
      (record_failure default_settings 0 c1_err (register_health "tavily"))).1 = false := by
  decide

/-- Below the threshold, a PROVIDER_ERROR failure only increments the
count and stores the error. -/
theorem record_failure_provider_below (settings : FallbackSettings) (now : Nat)
    (e : ProviderError) (h : ProviderHealth)
    (hty : e.type = .PROVIDER_ERROR)
    (hlt : h.failure_count + 1 < settings.circuit_breaker_threshold) :
    record_failure settings now e h =
      { h with last_error := some e, failure_count := h.failure_count + 1 } := by
  obtain ⟨ty, msg, prov, det⟩ := e
  cases hty
  dsimp only [record_failure]
  rw [if_neg (Nat.not_le.mpr hlt)]

/-- Reaching the threshold opens the breaker. -/
theorem record_failure_provider_opens (settings : FallbackSettings) (now : Nat)
    (e : ProviderError) (h : ProviderHealth)
    (hty : e.type = .PROVIDER_ERROR)
    (hge : settings.circuit_breaker_threshold ≤ h.failure_count + 1) :
    (record_failure settings now e h).circuit_breaker_open = true ∧
    (record_failure settings now e h).circuit_breaker_open_until =
      some (now + settings.circuit_breaker_timeout_ms) ∧
    (record_failure settings now e h).available = false ∧
    (record_failure settings now e h).failure_count = h.failure_count + 1 := by
  obtain ⟨ty, msg, prov, det⟩ := e
  cases hty
  dsimp only [record_failure]
  rw [if_pos hge]
  exact ⟨rfl, rfl, rfl, rfl⟩

/-- While the running count stays below the threshold, consecutive
PROVIDER_ERROR failures keep the breaker fields untouched and add one to
the count per failure. -/
theorem apply_failures_below (settings : FallbackSettings) (e : ProviderError)
    (hty : e.type = .PROVIDER_ERROR) :
    ∀ (ts : List Nat) (h : ProviderHealth),
      h.failure_count + ts.length < settings.circuit_breaker_threshold →
      (apply_provider_failures settings e ts h).failure_count = h.failure_count + ts.length ∧
      (apply_provider_failures settings e ts h).circuit_breaker_open = h.circuit_breaker_open ∧
      (apply_provider_failures settings e ts h).circuit_breaker_open_until = h.circuit_breaker_open_until := by
  intro ts
  induction ts with
  | nil => intro h _; exact ⟨rfl, rfl, rfl⟩
  | cons t rest ih =>
    intro h hlt
    have h1 : h.failure_count + 1 < settings.circuit_breaker_threshold := by
      simp only [List.length_cons] at hlt
      omega
    have hstep := record_failure_provider_below settings t e h hty h1
    have hcount : (record_failure settings t e h).failure_count = h.failure_count + 1 := by
      rw [hstep]
    have hopen : (record_failure settings t e h).circuit_breaker_open = h.circuit_breaker_open := by
      rw [hstep]
    have huntil : (record_failure settings t e h).circuit_breaker_open_until = h.circuit_breaker_open_until := by
      rw [hstep]
    have hrec := ih (record_failure settings t e h)
      (by rw [hcount]; simp only [List.length_cons] at hlt; omega)
    have e1 : apply_provider_failures settings e (t :: rest) h =
        apply_provider_failures settings e rest (record_failure settings t e h) := rfl
    refine ⟨?_, ?_, ?_⟩
    · rw [e1, hrec.1, hcount]
      simp only [List.length_cons]
      omega
    · rw [e1, hrec.2.1, hopen]
    · rw [e1, hrec.2.2, huntil]

/-- C2: starting from failure_count zero and a closed breaker, with no
success in between, exactly circuit_breaker_threshold consecutive
PROVIDER_ERROR failures open the circuit breaker, stamp
circuit_breaker_open_until with the time of the last failure plus
circuit_breaker_timeout_ms, and clear available, while threshold minus
one such failures leave the breaker closed. -/
theorem C2_breaker_threshold (settings : FallbackSettings) (e : ProviderError)
    (h0 : ProviderHealth) (ts : List Nat) (tN : Nat)
    (hty : e.type = .PROVIDER_ERROR)
    (hc0 : h0.failure_count = 0)
    (hbo : h0.circuit_breaker_open = false)
    (hthr : 1 ≤ settings.circuit_breaker_threshold) :
    (ts.length + 1 = settings.circuit_breaker_threshold →
      (apply_provider_failures settings e (ts ++ [tN]) h0).circuit_breaker_open = true ∧
      (apply_provider_failures settings e (ts ++ [tN]) h0).circuit_breaker_open_until =
        some (tN + settings.circuit_breaker_timeout_ms) ∧
      (apply_provider_failures settings e (ts ++ [tN]) h0).available = false) ∧
    (ts.length = settings.circuit_breaker_threshold - 1 →
      (apply_provider_failures settings e ts h0).circuit_breaker_open = false) := by
  constructor
  · intro hlen
    have hb := apply_failures_below settings e hty ts h0 (by omega)
    have hcnt : (apply_provider_failures settings e ts h0).failure_count = ts.length := by
      rw [hb.1, hc0]
      omega
    have happ : apply_provider_failures settings e (ts ++ [tN]) h0 =
        record_failure settings tN e (apply_provider_failures settings e ts h0) := by
      unfold apply_provider_failures
      rw [List.foldl_append]
      rfl
    have hopen := record_failure_provider_opens settings tN e
      (apply_provider_failures settings e ts h0) hty (by rw [hcnt]; omega)
    rw [happ]
    exact ⟨hopen.1, hopen.2.1, hopen.2.2.1⟩
  · intro hlen
    have hb := apply_failures_below settings e hty ts h0 (by omega)
    rw [hb.2.1, hbo]

/-- Witness for C2: with the default threshold 3, failures at times 10,
20 and 30 open the breaker until 30 plus the timeout and clear
available, while the first two alone leave it closed. -/
theorem C2_breaker_threshold_witness :
    (apply_provider_failures default_settings c2_err ([10, 20] ++ [30])
      (register_health "kagi")).circuit_breaker_open = true ∧
    (apply_provider_failures default_settings c2_err ([10, 20] ++ [30])
      (register_health "kagi")).circuit_breaker_open_until =
      some (30 + default_settings.circuit_breaker_timeout_ms) ∧
    (apply_provider_failures default_settings c2_err ([10, 20] ++ [30])
      (register_health "kagi")).available = false ∧
    (apply_provider_failures default_settings c2_err [10, 20]
      (register_health "kagi")).circuit_breaker_open = false := by
  have h := C2_breaker_threshold default_settings c2_err (register_health "kagi")
    [10, 20] 30 rfl rfl rfl (by decide)
  have h1 := h.1 (by decide)
  exact ⟨h1.1, h1.2.1, h1.2.2, h.2 (by decide)⟩

/-- A scored entry names the provider it was built from, which has a
strengths entry. -/
theorem score_one_spec (c : QueryCharacteristics) (a : String) (ps : ProviderScore)
    (h : score_one c a = some ps) : ps.provider = a ∧ PROVIDER_STRENGTHS a ≠ none := by
  cases hs : PROVIDER_STRENGTHS a with
  | none => simp [score_one, hs] at h
  | some st =>
    refine ⟨?_, by simp [hs]⟩
    simp only [score_one, hs, Option.some.injEq] at h
    rw [← h]

/-- Every entry of score_providers names a candidate with a strengths
entry. -/
theorem score_providers_subset (c : QueryCharacteristics) (l : List String)
    (ps : ProviderScore) (h : ps ∈ score_providers c l) :
    ps.provider ∈ l ∧ PROVIDER_STRENGTHS ps.provider ≠ none := by
  have h2 : ps ∈ l.filterMap (score_one c) :=
    (List.perm_insertionSort _ _).mem_iff.mp h
  obtain ⟨a, ha, he⟩ := List.mem_filterMap.mp h2
  obtain ⟨hp, hs⟩ := score_one_spec c a ps he
  subst hp
  exact ⟨ha, hs⟩

/-- A recommendation with confidence above zero came from a scored
candidate, so it lies in the candidate set and is non-empty. -/
theorem rec_high_conf (q : String) (l : List String)
    (h : 70 < (get_recommended_provider q l).confidence) :
    (get_recommended_provider q l).provider ∈ l ∧
    (get_recommended_provider q l).provider ≠ "" := by
  cases hsc : score_providers (analyze_query q) l with
  | nil =>
    exfalso
    simp only [get_recommended_provider, hsc] at h
    omega
  | cons top rest =>
    have hmem := score_providers_subset (analyze_query q) l top
      (by rw [hsc]; exact List.mem_cons_self _ _)
    have hprov : (get_recommended_provider q l).provider = top.provider := by
      simp [get_recommended_provider, hsc]
    rw [hprov]
    refine ⟨hmem.1, fun h0 => hmem.2 ?_⟩
    rw [h0]
    rfl

/-- C3: the dispatch order of unified_search puts the recommended
provider first, followed by the adaptive ranking with it removed,
exactly when the recommendation is non-empty, its confidence exceeds 70
and it lies in the available set; otherwise the dispatch order is the
adaptive ranking unchanged.  (For a recommendation produced by
get_recommended_provider over the available set, a confidence above 70
already forces membership, so the two case splits coincide with the
source condition.) -/
theorem C3_confidence_gate (q : String) (avail : List String) (sc : String → ℚ) :
    ((get_recommended_provider q avail).provider ≠ "" →
      70 < (get_recommended_provider q avail).confidence →
      (get_recommended_provider q avail).provider ∈ avail →
      combine_provider_rankings (get_recommended_provider q avail)
          (get_adaptive_provider_ranking sc avail) =
        (get_recommended_provider q avail).provider ::
          (get_adaptive_provider_ranking sc avail).filter
            (fun p => p ≠ (get_recommended_provider q avail).provider)) ∧
    (((get_recommended_provider q avail).provider = "" ∨
        (get_recommended_provider q avail).confidence ≤ 70 ∨
        (get_recommended_provider q avail).provider ∉ avail) →
      combine_provider_rankings (get_recommended_provider q avail)
          (get_adaptive_provider_ranking sc avail) =
        get_adaptive_provider_ranking sc avail) := by
  constructor
  · intro hne hconf _
    unfold combine_provider_rankings
    rw [if_pos ⟨hne, hconf⟩]
  · intro hdis
    unfold combine_provider_rankings
    rcases hdis with h0 | h0 | h0
    · rw [if_neg (fun hc => hc.1 h0)]
    · rw [if_neg (fun hc => absurd hc.2 (Nat.not_lt.mpr h0))]
    · rw [if_neg (fun hc => h0 (rec_high_conf q avail hc.2).1)]

/-- Witness for C3: on the S1 query over the three search providers with
a flat adaptive score, the recommendation (kagi, confidence 95) passes
the gate and goes first. -/
theorem C3_confidence_gate_witness :
    combine_provider_rankings (get_recommended_provider s1_query ["tavily", "kagi", "brave"])
        (get_adaptive_provider_ranking flat_score ["tavily", "kagi", "brave"]) =
      (get_recommended_provider s1_query ["tavily", "kagi", "brave"]).provider ::
        (get_adaptive_provider_ranking flat_score ["tavily", "kagi", "brave"]).filter
          (fun p => p ≠ (get_recommended_provider s1_query ["tavily", "kagi", "brave"]).provider) :=
  (C3_confidence_gate s1_query ["tavily", "kagi", "brave"] flat_score).1
    (by decide) (by decide) (by decide)

/-- One unfolding step of the retry loop. -/
theorem attempt_search_aux_step (outcomes : Nat → Except Thrown (List SearchResult))
    (r made attempt : Nat) (delays : List Nat) (last : Option Thrown) :
    attempt_search_aux outcomes (r + 1) made attempt delays last =
      (match outcomes attempt with
       | .ok rs => ⟨.ok rs, made + 1, delays⟩
       | .error e =>
         if non_retryable e then ⟨.error e, made + 1, delays⟩
         else if attempt < MAX_RETRIES then
           attempt_search_aux outcomes r (made + 1) (attempt + 1)
             (delays ++ [min (1000 * 2 ^ attempt) 5000]) (some e)
         else attempt_search_aux outcomes r (made + 1) (attempt + 1) delays (some e)) := rfl

/-- C5 (amended: the source rethrows immediately on the kinds RATE_LIMIT
and INVALID_INPUT and on any error whose message contains the substring
Invalid API key — it does not test for the AUTHENTICATION_ERROR kind):
a first-attempt error that is non-retryable is thrown to the outer
fallback loop after exactly one attempt with no backoff sleep, while
retryable errors are retried up to max_retries = 2 times (three total
attempts) with backoff min(1000 * 2 ^ attempt, 5000) milliseconds
between attempts, the last error being rethrown. -/
theorem C5_retry_policy (outcomes : Nat → Except Thrown (List SearchResult)) (e : Thrown) :
    (outcomes 0 = .error e → non_retryable e = true →
      attempt_search_trace outcomes = ⟨.error e, 1, []⟩) ∧
    ((∀ i, i ≤ MAX_RETRIES → ∃ ei, outcomes i = .error ei ∧ non_retryable ei = false) →
      (attempt_search_trace outcomes).attempts_made = MAX_RETRIES + 1 ∧
      (attempt_search_trace outcomes).delays =
        [min (1000 * 2 ^ 0) 5000, min (1000 * 2 ^ 1) 5000] ∧
      ∀ e2, outcomes MAX_RETRIES = .error e2 →
        (attempt_search_trace outcomes).result = .error e2) := by
  constructor
  · intro h0 hnr
    have s0 : attempt_search_trace outcomes = attempt_search_aux outcomes 3 0 0 [] none := rfl
    rw [s0, attempt_search_aux_step, h0]
    dsimp only
    rw [if_pos hnr]
  · intro hall
    obtain ⟨e0, h0, hn0⟩ := hall 0 (by decide)
    obtain ⟨e1, h1, hn1⟩ := hall 1 (by decide)
    obtain ⟨e2, h2, hn2⟩ := hall 2 (by decide)
    have key : attempt_search_trace outcomes =
        ⟨.error e2, 3, [min (1000 * 2 ^ 0) 5000, min (1000 * 2 ^ 1) 5000]⟩ := by
      have s0 : attempt_search_trace outcomes = attempt_search_aux outcomes 3 0 0 [] none := rfl
      rw [s0, attempt_search_aux_step, h0]
      dsimp only
      rw [if_neg (by simp [hn0]), if_pos (by decide), attempt_search_aux_step, h1]
      dsimp only
      rw [if_neg (by simp [hn1]), if_pos (by decide), attempt_search_aux_step, h2]
      dsimp only
      rw [if_neg (by simp [hn2]), if_neg (by decide)]
      rfl
    refine ⟨by rw [key]; rfl, by rw [key], ?_⟩
    intro e2' he2'
    have hM : MAX_RETRIES = 2 := rfl
    rw [hM] at he2'
    rw [h2] at he2'
    injection he2' with h3
    rw [key, ← h3]

/-- Witness for C5: a RATE_LIMIT error on the first call is rethrown
after one attempt with no sleep, and the always-failing retryable
outcomes run three attempts with sleeps 1000 and 2000. -/
theorem C5_retry_policy_witness :
    attempt_search_trace (fun _ => .error (.provider
        { type := .RATE_LIMIT, message := "Rate limit exceeded", provider := "tavily" })) =
      ⟨.error (.provider
        { type := .RATE_LIMIT, message := "Rate limit exceeded", provider := "tavily" }), 1, []⟩ ∧
    (attempt_search_trace failing_outcomes).attempts_made = MAX_RETRIES + 1 ∧
    (attempt_search_trace failing_outcomes).delays =
      [min (1000 * 2 ^ 0) 5000, min (1000 * 2 ^ 1) 5000] := by
  have h1 := (C5_retry_policy (fun _ => .error (.provider
    { type := .RATE_LIMIT, message := "Rate limit exceeded", provider := "tavily" }))
    (.provider { type := .RATE_LIMIT, message := "Rate limit exceeded", provider := "tavily" })).1
    rfl (by decide)
  have h2 := (C5_retry_policy failing_outcomes
    (.generic "boom")).2
    (fun i _ => ⟨.generic "boom", rfl, rfl⟩)
  exact ⟨h1, h2.1, h2.2.1⟩

/-- Counterexample to C5 as stated: an error of kind
AUTHENTICATION_ERROR whose message is Unauthorized is not thrown
immediately — all three attempts run, with backoff sleeps 1000 and 2000
in between, because the source only inspects the message for the
substring Invalid API key and never tests the AUTHENTICATION_ERROR
kind. -/
theorem C5_auth_retried_counterexample :
    (attempt_search_trace c5_auth_outcomes).attempts_made = 3 ∧
    (attempt_search_trace c5_auth_outcomes).delays = [1000, 2000] :=
  ⟨rfl, rfl⟩

/-- C6 (amended: on the S1 query the analyzer computes complexity
simple, not moderate — the query has seven words and triggers none of
the clause, comparison or multi-question bonuses): the S1 query is
classified technical, and over the candidates tavily, kagi, brave the
recommendation is kagi with confidence at least 95. -/
theorem C6_scenario_s1 :
    (analyze_query s1_query).query_type = QueryType.technical ∧
    (analyze_query s1_query).complexity = Complexity.simple ∧
    (get_recommended_provider s1_query ["tavily", "kagi", "brave"]).provider = "kagi" ∧
    95 ≤ (get_recommended_provider s1_query ["tavily", "kagi", "brave"]).confidence := by
  refine ⟨rfl, rfl, rfl, ?_⟩
  rw [show (get_recommended_provider s1_query ["tavily", "kagi", "brave"]).confidence = 95
    from rfl]

/-- Counterexample to C6 as stated: the claimed complexity moderate is
wrong — the analyzer returns simple for the S1 query. -/
theorem C6_complexity_counterexample :
    (analyze_query s1_query).complexity = Complexity.simple ∧
    (analyze_query s1_query).complexity ≠ Complexity.moderate := by
  constructor
  · rfl
  · rw [show (analyze_query s1_query).complexity = Complexity.simple from rfl]
    decide

/-- C7: query analysis is a pure function of the query string; two
evaluations in any two process environments (clock, mutable health
state, persisted snapshot) produce identical QueryCharacteristics
records. -/
theorem C7_deterministic_analysis :
    ∀ (env1 env2 : AnalyzerEnv) (q : String),
      analyze_query_at env1 q = analyze_query_at env2 q :=
  fun _ _ _ => rfl

/-- A non-empty list is not isEmpty. -/
theorem isEmpty_false_of_ne_nil {α : Type} {l : List α} (h : l ≠ []) :
    ¬ (l.isEmpty = true) := by
  cases l with
  | nil => exact absurd rfl h
  | cons a as => simp

/-- The adaptive ranking is a permutation of its candidate set. -/
theorem adaptive_ranking_perm (sc : String → ℚ) (l : List String) :
    List.Perm (get_adaptive_provider_ranking sc l) l := by
  unfold get_adaptive_provider_ranking
  have h := (List.perm_insertionSort (fun a b : String × ℚ => b.2 ≤ a.2)
    (l.map (fun p => (p, sc p)))).map (fun sp : String × ℚ => sp.1)
  simpa [Function.comp_def] using h

/-- The filtered availability list is drawn from its input list. -/
theorem filter_available_subset (cfg : SearchConfiguration) (now : Nat) :
    ∀ (names : List String) (hm : HealthMap) (p : String),
      p ∈ (filter_available cfg now names hm).1 → p ∈ names := by
  intro names
  induction names with
  | nil => intro hm p hp; simp [filter_available] at hp
  | cons n rest ih =>
    intro hm p hp
    simp only [filter_available] at hp
    split at hp
    · rcases List.mem_cons.mp hp with rfl | hp2
      · exact List.mem_cons_self _ _
      · exact List.mem_cons_of_mem _ (ih _ p hp2)
    · exact List.mem_cons_of_mem _ (ih _ p hp)

/-- The combined dispatch order is drawn from the available set. -/
theorem combine_ranking_subset (q : String) (sc : String → ℚ) (avail : List String) :
    ∀ p ∈ combine_provider_rankings (get_recommended_provider q avail)
      (get_adaptive_provider_ranking sc avail), p ∈ avail := by
  intro p hp
  unfold combine_provider_rankings at hp
  split at hp
  case isTrue hc =>
    rcases List.mem_cons.mp hp with rfl | hp2
    · exact (rec_high_conf q avail hc.2).1
    · exact (adaptive_ranking_perm sc avail).mem_iff.mp (List.mem_of_mem_filter hp2)
  case isFalse hc =>
    exact (adaptive_ranking_perm sc avail).mem_iff.mp hp

/-- C10: the configured priority order is always a subset of the fixed
category universes — tavily, kagi, brave for search and perplexity,
kagi_fastgpt for ai_response — whatever the configuration, health state
or clock, and the dispatch order of unified_search (and the available
list unified_ai_search iterates) is drawn from the available set, so
dispatch never leaves these fixed sets. -/
theorem C10_fixed_provider_universe :
    (∀ cfg : SearchConfiguration, ∀ p ∈ get_providers_by_priority cfg .search,
      p ∈ (["tavily", "kagi", "brave"] : List String)) ∧
    (∀ cfg : SearchConfiguration, ∀ p ∈ get_providers_by_priority cfg .ai_response,
      p ∈ (["perplexity", "kagi_fastgpt"] : List String)) ∧
    (∀ (cfg : SearchConfiguration) (hm : HealthMap) (now : Nat),
      ∀ p ∈ (get_available_providers cfg .search hm now).1,
        p ∈ (["tavily", "kagi", "brave"] : List String)) ∧
    (∀ (cfg : SearchConfiguration) (hm : HealthMap) (now : Nat),
      ∀ p ∈ (get_available_providers cfg .ai_response hm now).1,
        p ∈ (["perplexity", "kagi_fastgpt"] : List String)) ∧
    (∀ (q : String) (sc : String → ℚ) (avail : List String),
      ∀ p ∈ combine_provider_rankings (get_recommended_provider q avail)
        (get_adaptive_provider_ranking sc avail), p ∈ avail) := by
  have hprio : ∀ (cfg : SearchConfiguration) (cat : Category) (p : String),
      p ∈ get_providers_by_priority cfg cat →
      p ∈ (if cat = Category.ai_response then ["perplexity", "kagi_fastgpt"]
           else ["tavily", "kagi", "brave"] : List String) := by
    intro cfg cat p hp
    simp only [get_providers_by_priority] at hp
    have h2 := (List.perm_insertionSort _ _).mem_iff.mp hp
    exact (List.mem_filter.mp h2).1
  refine ⟨?_, ?_, ?_, ?_, combine_ranking_subset⟩
  · intro cfg p hp
    simpa using hprio cfg .search p hp
  · intro cfg p hp
    simpa using hprio cfg .ai_response p hp
  · intro cfg hm now p hp
    have h1 := filter_available_subset cfg now _ hm p hp
    simpa using hprio cfg .search p h1
  · intro cfg hm now p hp
    have h1 := filter_available_subset cfg now _ hm p hp
    simpa using hprio cfg .ai_response p h1

/-- Witness for C10: under the default configuration, tavily is in the
search priority order, and the theorem places it in the fixed search
universe. -/
theorem C10_fixed_provider_universe_witness :
    "tavily" ∈ get_providers_by_priority DEFAULT_SEARCH_CONFIG Category.search ∧
    "tavily" ∈ (["tavily", "kagi", "brave"] : List String) :=
  ⟨by decide, C10_fixed_provider_universe.1 DEFAULT_SEARCH_CONFIG "tavily" (by decide)⟩

/-- When every provider fails, the loop records every name in order and
exhausts. -/
theorem fallback_loop_exhausts (attempt : String → Except Thrown (List SearchResult))
    (hfail : ∀ p, ∃ e, attempt p = Except.error e) :
    ∀ (names acc : List String),
      fallback_loop attempt names acc = .exhausted (acc ++ names) := by
  intro names
  induction names with
  | nil => intro acc; simp [fallback_loop]
  | cons n rest ih =>
    intro acc
    obtain ⟨e, he⟩ := hfail n
    simp only [fallback_loop, he]
    rw [ih (acc ++ [n])]
    simp

/-- Over a duplicate-free available set, the combined dispatch order is
a permutation of it. -/
theorem combine_ranking_perm (q : String) (sc : String → ℚ) (avail : List String)
    (hnd : avail.Nodup) :
    List.Perm (combine_provider_rankings (get_recommended_provider q avail)
      (get_adaptive_provider_ranking sc avail)) avail := by
  unfold combine_provider_rankings
  split
  case isTrue hc =>
    have hA := adaptive_ranking_perm sc avail
    have hmem : (get_recommended_provider q avail).provider ∈
        get_adaptive_provider_ranking sc avail :=
      hA.mem_iff.mpr (rec_high_conf q avail hc.2).1
    have hndA : (get_adaptive_provider_ranking sc avail).Nodup := hA.nodup_iff.mpr hnd
    have hf : (get_adaptive_provider_ranking sc avail).filter
        (fun p => p ≠ (get_recommended_provider q avail).provider) =
        (get_adaptive_provider_ranking sc avail).erase
          (get_recommended_provider q avail).provider := by
      rw [hndA.erase_eq_filter]
      exact (List.filter_congr (fun x _ => by
        by_cases hx : x = (get_recommended_provider q avail).provider <;> simp [hx])).symm
    rw [hf]
    exact ((List.perm_cons_erase hmem).symm).trans hA
  case isFalse hc => exact adaptive_ranking_perm sc avail

/-- C4: with fallback enabled and a non-empty duplicate-free available
set on which every provider attempt fails, unified_search returns an
envelope with success false, empty provider_used, the error string
naming the size of the available set, and fallback_attempts equal to
the dispatch order — a permutation of the available set in which every
provider appears exactly once — and unified_ai_search does the same
over its available list in priority order. -/
theorem C4_exhaustion_envelope (fb : FallbackSettings) (q : String) (avail : List String)
    (sc : String → ℚ) (attempt : String → Except Thrown (List SearchResult)) (elapsed : Nat)
    (hfb : fb.enabled = true) (hne : avail ≠ []) (hnd : avail.Nodup)
    (hfail : ∀ p, ∃ e, attempt p = Except.error e) :
    (unified_search fb q avail sc attempt elapsed).success = false ∧
    (unified_search fb q avail sc attempt elapsed).provider_used = "" ∧
    (unified_search fb q avail sc attempt elapsed).error =
      some ("All " ++ toString avail.length ++ " search providers failed") ∧
    (unified_search fb q avail sc attempt elapsed).fallback_attempts =
      combine_provider_rankings (get_recommended_provider q avail)
        (get_adaptive_provider_ranking sc avail) ∧
    List.Perm (unified_search fb q avail sc attempt elapsed).fallback_attempts avail ∧
    (∀ p ∈ avail, (unified_search fb q avail sc attempt elapsed).fallback_attempts.count p = 1) ∧
    (unified_ai_search avail attempt elapsed).success = false ∧
    (unified_ai_search avail attempt elapsed).provider_used = "" ∧
    (unified_ai_search avail attempt elapsed).error =
      some ("All " ++ toString avail.length ++ " AI response providers failed") ∧
    (unified_ai_search avail attempt elapsed).fallback_attempts = avail ∧
    (∀ p ∈ avail, (unified_ai_search avail attempt elapsed).fallback_attempts.count p = 1) := by
  have hperm := combine_ranking_perm q sc avail hnd
  have hlen : (combine_provider_rankings (get_recommended_provider q avail)
      (get_adaptive_provider_ranking sc avail)).length = avail.length := hperm.length_eq
  have hPne : combine_provider_rankings (get_recommended_provider q avail)
      (get_adaptive_provider_ranking sc avail) ≠ [] := by
    intro h0
    rw [h0] at hperm
    exact hne (hperm.symm.eq_nil)
  have hres : unified_search fb q avail sc attempt elapsed =
      { results := [], provider_used := ""
        fallback_attempts := combine_provider_rankings (get_recommended_provider q avail)
          (get_adaptive_provider_ranking sc avail)
        total_time_ms := elapsed, success := false
        error := some ("All " ++ toString (combine_provider_rankings
          (get_recommended_provider q avail)
          (get_adaptive_provider_ranking sc avail)).length ++ " search providers failed")
        query_analysis := none } := by
    unfold unified_search
    dsimp only
    rw [if_neg (isEmpty_false_of_ne_nil hPne), if_neg (by simp [hfb]),
      fallback_loop_exhausts attempt hfail _ []]
    dsimp only
    rw [List.nil_append]
  have hresa : unified_ai_search avail attempt elapsed =
      { results := [], provider_used := "", fallback_attempts := avail
        total_time_ms := elapsed, success := false
        error := some ("All " ++ toString avail.length ++ " AI response providers failed")
        query_analysis := none } := by
    unfold unified_ai_search
    rw [if_neg (isEmpty_false_of_ne_nil hne), fallback_loop_exhausts attempt hfail _ []]
    dsimp only
    rw [List.nil_append]
  refine ⟨by rw [hres], by rw [hres], by rw [hres]; dsimp only; rw [hlen], by rw [hres],
    ?_, ?_, by rw [hresa], by rw [hresa], by rw [hresa], by rw [hresa], ?_⟩
  · rw [hres]
    exact hperm
  · intro p hp
    rw [hres]
    dsimp only
    rw [hperm.count_eq]
    exact List.count_eq_one_of_mem hnd hp
  · intro p hp
    rw [hresa]
    dsimp only
    exact List.count_eq_one_of_mem hnd hp

/-- Witness for C4: the three healthy search providers, a flat adaptive
score and an always-failing provider call exhaust both paths. -/
theorem C4_exhaustion_envelope_witness :
    (unified_search default_settings s1_query ["tavily", "kagi", "brave"]
      flat_score failing_attempt 0).success = false ∧
    (unified_ai_search ["tavily", "kagi", "brave"] failing_attempt 0).success = false := by
  have h := C4_exhaustion_envelope default_settings s1_query ["tavily", "kagi", "brave"]
    flat_score failing_attempt 0 rfl (by decide) (by decide)
    (fun p => ⟨.generic "boom", rfl⟩)
  exact ⟨h.1, h.2.2.2.2.2.2.1⟩

end Omni
